import Mathlib

/-!
Verification of the grating-coupler simulation scripts.

This file gives a shallow embedding of the three Python source files

  * optio/get_simulation_fiber.py
  * grating_coupler_meep/fiber_sweep_cores.py
  * grating_coupler_meep/plot_sims.py

and proves the stated properties about them.

Modelling conventions:
  * Python floats are modelled as rationals (ℚ); the claims under scrutiny are
    closed-form arithmetic identities, so exactness over ℚ is the right notion.
  * Transcendental library calls (np.tan, np.radians, np.cos, np.sin, and the
    "** 0.5" square root) are kept abstract as components of a `MathEnv`
    parameter: the code only pipes their results around.
  * External meep objects (Simulation, monitors, sources) are opaque type
    parameters: the code never inspects them, it only stores them in the
    returned dict.
  * Observable side effects (printing, subprocess calls, file reads) are
    reified as explicit event lists so that "executes exactly one command" and
    "loads exactly this file" become provable statements.
-/

/-- Abstract numeric environment for the transcendental numpy calls used by
`get_simulation_fiber.py`: `rt x` stands for `x ** 0.5`, the rest for the
homonymous `np` functions. -/
structure MathEnv where
  rt : ℚ → ℚ
  tan : ℚ → ℚ
  radians : ℚ → ℚ
  cos : ℚ → ℚ
  sin : ℚ → ℚ

/-- Source line `nm = 1e-3`. -/
def nm : ℚ := 1e-3

/-- Source line `nSi = 3.47`. -/
def nSi : ℚ := 3.47

/-- Source line `nSiO2 = 1.44`. -/
def nSiO2 : ℚ := 1.44

/-- `Floats = Tuple[float, ...]` from the source, as a list of rationals. -/
abbrev Floats := List ℚ

/-- Python truthiness for `x or default` where `x : Optional[Floats]`:
`None` and the empty list are falsy, every other list is truthy. -/
def pyOrFloats (x : Option Floats) (d : Floats) : Floats :=
  match x with
  | Option.none => d
  | Option.some l => if l = [] then d else l

/-- The keyword parameters of `get_simulation_fiber`, with the default values
from the Python signature (lines 71-107 of get_simulation_fiber.py). -/
structure Params where
  period : ℚ := 0.66
  fill_factor : ℚ := 0.5
  widths : Option Floats := Option.none
  gaps : Option Floats := Option.none
  n_periods : ℕ := 30
  etch_depth : ℚ := 70 * nm
  fiber_angle_deg : ℚ := 20.0
  fiber_xposition : ℚ := 1.0
  fiber_core_diameter : ℚ := 10.4
  fiber_numerical_aperture : ℚ := 0.14
  fiber_nclad : ℚ := nSiO2
  ncore : ℚ := nSi
  ncladtop : ℚ := nSiO2
  ncladbottom : ℚ := nSiO2
  nsubstrate : ℚ := nSi
  pml_thickness : ℚ := 1.0
  substrate_thickness : ℚ := 1.0
  bottom_clad_thickness : ℚ := 2.0
  core_thickness : ℚ := 220 * nm
  top_clad_thickness : ℚ := 2.0
  air_gap_thickness : ℚ := 1.0
  fiber_thickness : ℚ := 2.0
  res : ℕ := 64
  wavelength_min : ℚ := 1.4
  wavelength_max : ℚ := 1.7
  wavelength_points : ℕ := 150
  eps_averaging : Bool := false
  fiber_port_y_offset_from_air : ℚ := 1
  waveguide_port_x_offset_from_grating_start : ℚ := 10
  fiber_port_x_size : Option ℚ := Option.none

/-- Line 119: `widths = widths or n_periods * [period * fill_factor]`. -/
def widths_used (p : Params) : Floats :=
  pyOrFloats p.widths (List.replicate p.n_periods (p.period * p.fill_factor))

/-- Line 120: `gaps = gaps or n_periods * [period * (1 - fill_factor)]`. -/
def gaps_used (p : Params) : Floats :=
  pyOrFloats p.gaps (List.replicate p.n_periods (p.period * (1 - p.fill_factor)))

/-- The `settings` dict built on lines 122-150, in declaration order. -/
structure Settings where
  widths : Floats
  gaps : Floats
  n_periods : ℕ
  etch_depth : ℚ
  fiber_angle_deg : ℚ
  fiber_xposition : ℚ
  fiber_core_diameter : ℚ
  fiber_numerical_aperture : ℚ
  fiber_nclad : ℚ
  ncore : ℚ
  ncladtop : ℚ
  ncladbottom : ℚ
  nsubstrate : ℚ
  pml_thickness : ℚ
  substrate_thickness : ℚ
  bottom_clad_thickness : ℚ
  core_thickness : ℚ
  top_clad_thickness : ℚ
  air_gap_thickness : ℚ
  fiber_thickness : ℚ
  res : ℕ
  wavelength_min : ℚ
  wavelength_max : ℚ
  wavelength_points : ℕ
  eps_averaging : Bool
  fiber_port_y_offset_from_air : ℚ
  waveguide_port_x_offset_from_grating_start : ℚ
deriving DecidableEq

/-- Lines 122-150: the recorded settings, with `widths`/`gaps` the values
after the `or`-defaulting of lines 119-120. -/
def settings_of (p : Params) : Settings :=
  { widths := widths_used p
    gaps := gaps_used p
    n_periods := p.n_periods
    etch_depth := p.etch_depth
    fiber_angle_deg := p.fiber_angle_deg
    fiber_xposition := p.fiber_xposition
    fiber_core_diameter := p.fiber_core_diameter
    fiber_numerical_aperture := p.fiber_numerical_aperture
    fiber_nclad := p.fiber_nclad
    ncore := p.ncore
    ncladtop := p.ncladtop
    ncladbottom := p.ncladbottom
    nsubstrate := p.nsubstrate
    pml_thickness := p.pml_thickness
    substrate_thickness := p.substrate_thickness
    bottom_clad_thickness := p.bottom_clad_thickness
    core_thickness := p.core_thickness
    top_clad_thickness := p.top_clad_thickness
    air_gap_thickness := p.air_gap_thickness
    fiber_thickness := p.fiber_thickness
    res := p.res
    wavelength_min := p.wavelength_min
    wavelength_max := p.wavelength_max
    wavelength_points := p.wavelength_points
    eps_averaging := p.eps_averaging
    fiber_port_y_offset_from_air := p.fiber_port_y_offset_from_air
    waveguide_port_x_offset_from_grating_start :=
      p.waveguide_port_x_offset_from_grating_start }

/-- Line 155: `fiber_angle = np.radians(fiber_angle_deg)`. -/
def fiber_angle (env : MathEnv) (p : Params) : ℚ :=
  env.radians p.fiber_angle_deg

/-- Lines 158-167: the z-extent `sz` of the cell. -/
def sz (p : Params) : ℚ :=
  p.pml_thickness + p.substrate_thickness + p.bottom_clad_thickness
    + p.core_thickness + p.top_clad_thickness + p.air_gap_thickness
    + p.fiber_thickness + p.pml_thickness

/-- Lines 170-176: the first `fiber_port_y` binding, used for the x-extent. -/
def fiber_port_y_initial (p : Params) : ℚ :=
  -sz p / 2 + p.core_thickness + p.top_clad_thickness + p.air_gap_thickness
    + p.fiber_port_y_offset_from_air

/-- Line 177: `np.abs(fiber_port_y * np.tan(fiber_angle))`. -/
def fiber_port_x_offset_from_angle (env : MathEnv) (p : Params) : ℚ :=
  |fiber_port_y_initial p * env.tan (fiber_angle env p)|

/-- Lines 178-182: the x-extent `sxy` of the cell. -/
def sxy (env : MathEnv) (p : Params) : ℚ :=
  3.5 * p.fiber_core_diameter + 2 * p.pml_thickness
    + 2 * fiber_port_x_offset_from_angle env p

/-- Lines 67-68: the module-level helper `fiber_ncore`. -/
def fiber_ncore (env : MathEnv) (fiber_numerical_aperture fiber_nclad : ℚ) : ℚ :=
  env.rt (fiber_numerical_aperture ^ 2 + fiber_nclad ^ 2)

/-- Lines 195-197: `grating_start = -fiber_xposition`. -/
def grating_start (p : Params) : ℚ :=
  -p.fiber_xposition

/-- Lines 203-211: the second `fiber_port_y` binding (the port position). -/
def fiber_port_y (p : Params) : ℚ :=
  -sz p / 2 + (p.pml_thickness + p.substrate_thickness + p.bottom_clad_thickness
    + p.core_thickness + p.top_clad_thickness + p.air_gap_thickness
    + p.fiber_port_y_offset_from_air)

/-- Line 212: `fiber_port_center` (a 2-d point, the z component is zero). -/
def fiber_port_center (env : MathEnv) (p : Params) : ℚ × ℚ :=
  (fiber_port_x_offset_from_angle env p, fiber_port_y p)

/-- A meep size value: either a bare Python float (scalar) or a `Vector3`.
Line 213 can produce both, depending on the truthiness of
`fiber_port_x_size`. -/
inductive SizeVal where
  | scalar (x : ℚ)
  | vec3 (x y z : ℚ)
deriving DecidableEq

/-- Line 213: `fiber_port_size = fiber_port_x_size or mp.Vector3(3.5 *
fiber_core_diameter, 0, 0)`.  Python `or` keeps the left operand exactly when
it is truthy: a non-`None`, non-zero float.  -/
def fiber_port_size (fiber_port_x_size : Option ℚ) (fiber_core_diameter : ℚ) :
    SizeVal :=
  match fiber_port_x_size with
  | Option.none => SizeVal.vec3 (3.5 * fiber_core_diameter) 0 0
  | Option.some x =>
      if x = 0 then SizeVal.vec3 (3.5 * fiber_core_diameter) 0 0
      else SizeVal.scalar x

/-- Lines 216-222: `waveguide_port_y`. -/
def waveguide_port_y (p : Params) : ℚ :=
  -sz p / 2 + (p.pml_thickness + p.substrate_thickness
    + p.bottom_clad_thickness / 2 + p.core_thickness / 2
    + p.top_clad_thickness / 2)

/-- Line 223: `waveguide_port_x = grating_start - waveguide_port_x_offset_from_grating_start`. -/
def waveguide_port_x (p : Params) : ℚ :=
  grating_start p - p.waveguide_port_x_offset_from_grating_start

/-- Lines 224-226: `waveguide_port_center`. -/
def waveguide_port_center (p : Params) : ℚ × ℚ :=
  (waveguide_port_x p, waveguide_port_y p)

/-- Lines 227-229: `waveguide_port_size`. -/
def waveguide_port_size (p : Params) : SizeVal :=
  SizeVal.vec3 0
    (p.bottom_clad_thickness + p.core_thickness / 2 + p.top_clad_thickness) 0

/-- A meep material: `mp.Medium(index=n)` or the predefined `mp.air`. -/
inductive Material where
  | medium (index : ℚ)
  | air
deriving DecidableEq

/-- One coordinate of a meep `Vector3` size: a finite length or `mp.inf`. -/
inductive MeepLen where
  | fin (v : ℚ)
  | inf
deriving DecidableEq

/-- A geometry `mp.Block` as constructed by `get_simulation_fiber`: 2-d
center, 2-d size, material, and the optional rotated basis vectors `e1`/`e2`
(only the two fiber blocks set them). -/
structure Block where
  material : Material
  center : ℚ × ℚ
  size : MeepLen × MeepLen
  e1 : Option (ℚ × ℚ) := Option.none
  e2 : Option (ℚ × ℚ) := Option.none
deriving DecidableEq

/-- `mp.Vector3.rotate` about the z axis restricted to the x-y plane:
rotating `v` by angle `phi` (the source rotates by `-1 * fiber_angle`). -/
def rotateZ (env : MathEnv) (v : ℚ × ℚ) (phi : ℚ) : ℚ × ℚ :=
  (v.1 * env.cos phi - v.2 * env.sin phi,
   v.1 * env.sin phi + v.2 * env.cos phi)

/-- Lines 238-246: the fiber cladding block (`fiber_clad = 120`,
`hfiber_geom = 200`). -/
def fiber_clad_block (env : MathEnv) (p : Params) : Block :=
  { material := Material.medium p.fiber_nclad
    center := (0, waveguide_port_y p - p.core_thickness / 2)
    size := (MeepLen.fin 120, MeepLen.fin 200)
    e1 := Option.some (rotateZ env (1, 0) (-1 * fiber_angle env p))
    e2 := Option.some (rotateZ env (0, 1) (-1 * fiber_angle env p)) }

/-- Lines 247-255: the fiber core block. -/
def fiber_core_block (env : MathEnv) (p : Params) : Block :=
  { material :=
      Material.medium (fiber_ncore env p.fiber_numerical_aperture p.fiber_nclad)
    center := (0, 0)
    size := (MeepLen.fin p.fiber_core_diameter, MeepLen.fin 200)
    e1 := Option.some (rotateZ env (1, 0) (-1 * fiber_angle env p))
    e2 := Option.some (rotateZ env (0, 1) (-1 * fiber_angle env p)) }

/-- Lines 257-275: the air gap block. -/
def air_gap_block (p : Params) : Block :=
  { material := Material.air
    center := (0, -sz p / 2
      + (p.pml_thickness + p.substrate_thickness + p.bottom_clad_thickness
        + p.core_thickness + p.top_clad_thickness + p.air_gap_thickness / 2))
    size := (MeepLen.inf, MeepLen.fin p.air_gap_thickness) }

/-- Lines 276-293: the top cladding block. -/
def top_clad_block (p : Params) : Block :=
  { material := Material.medium p.ncladtop
    center := (0, -sz p / 2
      + (p.pml_thickness + p.substrate_thickness + p.bottom_clad_thickness
        + p.core_thickness / 2 + p.top_clad_thickness / 2))
    size := (MeepLen.inf, MeepLen.fin (p.core_thickness + p.top_clad_thickness)) }

/-- Lines 294-305: the bottom cladding block. -/
def bottom_clad_block (p : Params) : Block :=
  { material := Material.medium p.ncladbottom
    center := (0, -sz p / 2
      + (p.pml_thickness + p.substrate_thickness + p.bottom_clad_thickness / 2))
    size := (MeepLen.inf, MeepLen.fin p.bottom_clad_thickness) }

/-- Lines 307-323: the waveguide core block. -/
def waveguide_block (p : Params) : Block :=
  { material := Material.medium p.ncore
    center := (0, -sz p / 2
      + (p.pml_thickness + p.substrate_thickness + p.bottom_clad_thickness
        + p.core_thickness / 2))
    size := (MeepLen.inf, MeepLen.fin p.core_thickness) }

/-- The y coordinate shared by every grating etch block (lines 333-340). -/
def etch_y (p : Params) : ℚ :=
  -sz p / 2 + (p.pml_thickness + p.substrate_thickness
    + p.bottom_clad_thickness + p.core_thickness - p.etch_depth / 2)

/-- Lines 326-345: the grating etch loop.  `x` is the running coordinate
initialised to `grating_start`; for each `(width, gap)` pair of
`zip(widths, gaps)` one block of size `(gap, etch_depth)` centered at
`x + gap / 2` is appended, and then `x += width + gap`. -/
def etch_blocks (p : Params) : ℚ → List (ℚ × ℚ) → List Block
  | _, [] => []
  | x, (width, gap) :: rest =>
      { material := Material.medium p.ncladtop
        center := (x + gap / 2, etch_y p)
        size := (MeepLen.fin gap, MeepLen.fin p.etch_depth) }
        :: etch_blocks p (x + width + gap) rest

/-- Lines 347-354: the substrate block. -/
def substrate_block (p : Params) : Block :=
  { material := Material.medium p.nsubstrate
    center := (0, -sz p / 2 + p.pml_thickness / 2 + p.substrate_thickness / 2)
    size := (MeepLen.inf, MeepLen.fin (p.pml_thickness + p.substrate_thickness)) }

/-- Lines 236-354: the whole `geometry` list in append order: fiber cladding,
fiber core, air gap, top cladding, bottom cladding, waveguide core, one etch
block per `(width, gap)` pair, substrate. -/
def geometry (env : MathEnv) (p : Params) : List Block :=
  [fiber_clad_block env p, fiber_core_block env p, air_gap_block p,
   top_clad_block p, bottom_clad_block p, waveguide_block p]
  ++ etch_blocks p (grating_start p) (List.zip (widths_used p) (gaps_used p))
  ++ [substrate_block p]

/-- `np.linspace a b n`: `n` evenly spaced samples from `a` to `b`
inclusive (for `n = 1` numpy returns `[a]`, which the formula also gives
since `0 / 0 = 0` in ℚ). -/
def linspace (a b : ℚ) (n : ℕ) : List ℚ :=
  (List.range n).map (fun i => a + (b - a) * i / (n - 1))

/-- Line 116: `wavelengths = np.linspace(wavelength_min, wavelength_max,
wavelength_points)`. -/
def wavelengths (p : Params) : List ℚ :=
  linspace p.wavelength_min p.wavelength_max p.wavelength_points

/-- `np.mean` of a list. -/
def listMean (l : List ℚ) : ℚ :=
  l.sum / l.length

/-- Line 118: `freqs = 1 / wavelengths` (elementwise). -/
def freqs (p : Params) : List ℚ :=
  (wavelengths p).map (fun w => 1 / w)

/-- Line 360: `fcen = 1 / wavelength` with `wavelength = np.mean(wavelengths)`
from line 117. -/
def fcen (p : Params) : ℚ :=
  1 / listMean (wavelengths p)

/-- A meep direction constant (`mp.X`, ...). -/
inductive MeepDir where
  | X
  | Y
  | Z
  | NoDir
deriving DecidableEq

/-- A meep `mp.ModeRegion`. -/
structure ModeRegion where
  center : ℚ × ℚ
  size : SizeVal
deriving DecidableEq

/-- Lines 378-380: `waveguide_monitor_port`, the waveguide port center nudged
by `mp.Vector3(x=0.2)`. -/
def waveguide_monitor_port (p : Params) : ModeRegion :=
  { center := ((waveguide_port_center p).1 + 0.2, (waveguide_port_center p).2)
    size := waveguide_port_size p }

/-- Lines 381-383: `fiber_monitor_port`, the fiber port center nudged by
`-mp.Vector3(y=0.2)`, with size the value of line 213. -/
def fiber_monitor_port (env : MathEnv) (p : Params) : ModeRegion :=
  { center := ((fiber_port_center env p).1, (fiber_port_center env p).2 - 0.2)
    size := fiber_port_size p.fiber_port_x_size p.fiber_core_diameter }

/-- The dict returned by `get_simulation_fiber` (lines 400-413).  `S`, `Src`
and `M` are the opaque types of the external meep simulation, source and
monitor objects. -/
structure SimDict (S Src M : Type) where
  sim : S
  cell_size : ℚ × ℚ
  freqs : List ℚ
  fcen : ℚ
  waveguide_monitor : M
  waveguide_port_direction : MeepDir
  fiber_monitor : M
  fiber_angle_deg : ℚ
  sources : List Src
  field_monitor_point : ℚ × ℚ × ℚ
  initialized : Bool
  settings : Settings

/-- Lines 71-413, the pure content of `get_simulation_fiber`: the opaque meep
objects (`sim`, the eigenmode source, the two monitors) are taken as
arguments since the Python code only builds and stores them; every numeric
field of the dict is computed by the definitions above. -/
def get_simulation_fiber {S Src M : Type} (env : MathEnv) (p : Params)
    (sim : S) (src : Src) (waveguide_monitor fiber_monitor : M) :
    SimDict S Src M :=
  { sim := sim
    cell_size := (sxy env p, sz p)
    freqs := freqs p
    fcen := fcen p
    waveguide_monitor := waveguide_monitor
    waveguide_port_direction := MeepDir.X
    fiber_monitor := fiber_monitor
    fiber_angle_deg := p.fiber_angle_deg
    sources := [src]
    field_monitor_point := (0, 0, 0)
    initialized := false
    settings := settings_of p }

/-- Lines 416-491, the effect of `get_port_1D_eigenmode` on its `sim_dict`
argument: lines 446-448 run `sim.init_sim()` and set
`sim_dict["initialized"] = True` exactly when `sim_dict["initialized"] is
False`; no other key is written.  The returned boolean records whether
`sim.init_sim()` was run. -/
def get_port_1D_eigenmode_dict {S Src M : Type} (sim_dict : SimDict S Src M) :
    SimDict S Src M × Bool :=
  if sim_dict.initialized = false then
    ({ sim_dict with initialized := true }, true)
  else
    (sim_dict, false)

/-- An observable side effect of `fiber_sweep_cores.run`: the `print` and the
`subprocess.call` of lines 13-14. -/
inductive Effect where
  | consolePrint (s : String)
  | subprocessCall (s : String)
deriving DecidableEq

/-- Lines 7-14 of fiber_sweep_cores.py.  `value` is the rendered form of the
forwarded parameter value (Python interpolates it with `str`); the function
builds the single command string of line 12, prints it, and passes it to
`subprocess.call`. -/
def run (key : String) (value : String) (ncores : ℕ) : List Effect :=
  let command :=
    "mpirun -np " ++ toString ncores ++ " python fiber.py --" ++ key ++ "=" ++ value
  [Effect.consolePrint command, Effect.subprocessCall command]

/-- The commands passed to `subprocess.call` among a list of effects. -/
def subprocessCalls (effects : List Effect) : List String :=
  effects.filterMap (fun e =>
    match e with
    | Effect.subprocessCall s => Option.some s
    | _ => Option.none)

/-- A file path as used by plot_sims.py: a stem (directory and base name)
plus the final suffix, mirroring `pathlib`'s stem/suffix split. -/
structure PathName where
  stem : String
  ext : String
deriving DecidableEq

/-- `pathlib.Path.with_suffix`: replace the final suffix, keep the stem. -/
def PathName.with_suffix (p : PathName) (s : String) : PathName :=
  { stem := p.stem, ext := s }

/-- The one field of the settings files that plot_sims.py reads:
`settings.settings.fiber_xposition`. -/
structure FiberSettings where
  fiber_xposition : ℚ
deriving DecidableEq

/-- An `OmegaConf.load` result: a config whose `settings` section holds the
simulation settings. -/
structure OmegaConfFile where
  settings : FiberSettings
deriving DecidableEq

/-- A `pd.read_csv` result: the one column plot_sims.py uses. -/
structure DataFrame where
  s21m : List ℚ
deriving DecidableEq

/-- The external world of plot_sims.py: loading a YAML settings file,
reading a CSV result file (either may fail with an error message), and the
abstract `np.log10`. -/
structure PlotEnv where
  loadConf : PathName → Except String OmegaConfFile
  read_csv : PathName → Except String DataFrame
  log10 : ℚ → ℚ

/-- An error escaping a plotting function: an uncaught read failure from
`OmegaConf.load` or `pd.read_csv` (tagged with the offending path), or the
`ValueError` of `max()` on an empty sequence. -/
inductive PlotError where
  | yamlReadError (p : PathName) (msg : String)
  | csvReadError (p : PathName) (msg : String)
  | emptySequence
deriving DecidableEq

/-- A file-read event performed by a plotting loop. -/
inductive PlotIOEvent where
  | yamlLoad (p : PathName)
  | csvRead (p : PathName)
deriving DecidableEq

/-- Python `max` on an iterable: `ValueError` on an empty one. -/
def pymax : List ℚ → Except PlotError ℚ
  | [] => Except.error PlotError.emptySequence
  | x :: xs => Except.ok (xs.foldl max x)

/-- Total version of `pymax` for stating results about nonempty columns. -/
def pymax1 : List ℚ → ℚ
  | [] => 0
  | x :: xs => xs.foldl max x

/-- The body shared verbatim by the loops of `plot_fiber_xposition_max_power`
(lines 14-22) and `plot_fiber_xposition_spectrum` (lines 41-50): for each
`filepath_csv` of the glob, load `filepath_csv.with_suffix(".yml")` with
`OmegaConf.load`, read `filepath_csv` with `pd.read_csv`, compute
`s21 = 10 * np.log10(df.s21m)`, append `settings.settings.fiber_xposition`
to `fiber_xpositions` and `max(s21)` to `s21_max`.  The first two components
accumulate those lists, the trace records every file read, and any read
failure escapes uncaught. -/
def plot_pairs_loop (env : PlotEnv) :
    List PathName → List ℚ → List ℚ → List PlotIOEvent →
    List PlotIOEvent × Except PlotError (List ℚ × List ℚ)
  | [], fiber_xpositions, s21_max, trace =>
      (trace, Except.ok (fiber_xpositions, s21_max))
  | filepath_csv :: rest, fiber_xpositions, s21_max, trace =>
      let filepath_yaml := filepath_csv.with_suffix ".yml"
      match env.loadConf filepath_yaml with
      | Except.error msg =>
          (trace ++ [PlotIOEvent.yamlLoad filepath_yaml],
           Except.error (PlotError.yamlReadError filepath_yaml msg))
      | Except.ok conf =>
          match env.read_csv filepath_csv with
          | Except.error msg =>
              (trace ++ [PlotIOEvent.yamlLoad filepath_yaml,
                         PlotIOEvent.csvRead filepath_csv],
               Except.error (PlotError.csvReadError filepath_csv msg))
          | Except.ok df =>
              let s21 := df.s21m.map (fun v => 10 * env.log10 v)
              match pymax s21 with
              | Except.error e =>
                  (trace ++ [PlotIOEvent.yamlLoad filepath_yaml,
                             PlotIOEvent.csvRead filepath_csv],
                   Except.error e)
              | Except.ok m =>
                  plot_pairs_loop env rest
                    (fiber_xpositions ++ [conf.settings.fiber_xposition])
                    (s21_max ++ [m])
                    (trace ++ [PlotIOEvent.yamlLoad filepath_yaml,
                               PlotIOEvent.csvRead filepath_csv])

/-- Lines 8-27: `plot_fiber_xposition_max_power`, applied to the list of
`*.csv` paths produced by the glob over the data directory. -/
def plot_fiber_xposition_max_power (env : PlotEnv) (csv_files : List PathName) :
    List PlotIOEvent × Except PlotError (List ℚ × List ℚ) :=
  plot_pairs_loop env csv_files [] [] []

/-- Lines 30-55: `plot_fiber_xposition_spectrum`.  Besides the identical
file-pair loop it builds the wavelength axis of line 39 (returned first). -/
def plot_fiber_xposition_spectrum (env : PlotEnv)
    (wavelength_min : ℚ) (wavelength_max : ℚ) (wavelength_points : ℕ)
    (csv_files : List PathName) :
    List ℚ × (List PlotIOEvent × Except PlotError (List ℚ × List ℚ)) :=
  (linspace wavelength_min wavelength_max wavelength_points,
   plot_pairs_loop env csv_files [] [] [])

/-- A Python value as handled by `to_string` / `dict_to_name` (lines 45-64):
`None`, an atomic value together with its `str()` rendering, a list, or a
dict (an association list of string keys, in insertion order). -/
inductive PyVal where
  | pynone : PyVal
  | atom (s : String) : PyVal
  | plist (l : List PyVal) : PyVal
  | pdict (d : List (String × PyVal)) : PyVal

/-- Boolean test for the Python `value is not None` guard of line 52. -/
def PyVal.isNone : PyVal → Bool
  | PyVal.pynone => true
  | _ => false

/-- Python `"_".join`. -/
def joinUnderscore (l : List String) : String :=
  String.intercalate "_" l

/-- Python `kwargs[key]` on an association list (first matching key). -/
def dict_getitem {β : Type} (entries : List (String × β)) (key : String) :
    Option β :=
  match entries with
  | [] => Option.none
  | (k, v) :: rest => if k = key then Option.some v else dict_getitem rest key

/-- The name built from pre-rendered dict entries, given as
`(key, none)` for a `None` value and `(key, some s)` for a value rendered to
`s` by `to_string`.  This is the loop of `dict_to_name` (lines 47-54):
iterate over `sorted(kwargs)`, look the key up, skip `None` values, emit
`key + to_string(value)`, and join with underscores.  (The guard
`isinstance(key, str)` of line 50 is always true: `**kwargs` keys are
strings.) -/
def name_from_rendered (entries : List (String × Option String)) : String :=
  joinUnderscore
    ((List.insertionSort (fun a b => a ≤ b) (entries.map Prod.fst)).filterMap
      (fun key =>
        match dict_getitem entries key with
        | Option.some (Option.some s) => Option.some (key ++ s)
        | _ => Option.none))

mutual

/-- Lines 57-64: `to_string`.  Lists are rendered elementwise and joined by
underscores, dicts go through `dict_to_name`, `None` and atoms through
`str`. -/
def to_string : PyVal → String
  | PyVal.pynone => "None"
  | PyVal.atom s => s
  | PyVal.plist l => joinUnderscore (to_string_list l)
  | PyVal.pdict d => name_from_rendered (render_entries d)

/-- `[to_string(i) for i in value]` (line 59). -/
def to_string_list : List PyVal → List String
  | [] => []
  | v :: rest => to_string v :: to_string_list rest

/-- Render each dict entry: `None` values are tagged `none` (line 52 skips
them), every other value is rendered with `to_string`. -/
def render_entries : List (String × PyVal) → List (String × Option String)
  | [] => []
  | (k, PyVal.pynone) :: rest => (k, Option.none) :: render_entries rest
  | (k, v) :: rest => (k, Option.some (to_string v)) :: render_entries rest

end

/-- `render_entries` as a per-entry map (used to transport permutations and
filters through the rendering step). -/
def render_entry (kv : String × PyVal) : String × Option String :=
  (kv.1, if kv.2.isNone then Option.none else Option.some (to_string kv.2))

/-- Lines 45-54: `dict_to_name(**kwargs)`. -/
def dict_to_name (kwargs : List (String × PyVal)) : String :=
  name_from_rendered (render_entries kwargs)

/-- Line 151: `settings_string = to_string(settings)` where `settings` is the
dict of lines 122-150. -/
def settings_string (settings : List (String × PyVal)) : String :=
  to_string (PyVal.pdict settings)

/-- Line 152: `settings_hash = hashlib.md5(settings_string.encode())
.hexdigest()[:8]`, with the md5 hex digest kept abstract. -/
def settings_hash (md5_hexdigest : String → String) (s : String) : String :=
  (md5_hexdigest s).take 8

/-- A concrete `MathEnv` used to instantiate universally quantified theorems
on concrete inputs. -/
def idMathEnv : MathEnv :=
  { rt := id, tan := id, radians := id, cos := id, sin := id }

/-- Concrete settings-file object for instantiating the plotting theorems. -/
def confObjW : OmegaConfFile :=
  { settings := { fiber_xposition := 5 } }

/-- Concrete data-frame object for instantiating the plotting theorems. -/
def dfObjW : DataFrame :=
  { s21m := [1] }

/-- A concrete csv path. -/
def pathA : PathName :=
  { stem := "data/a", ext := ".csv" }

/-- A plotting world in which every read succeeds. -/
def plotEnvOkW : PlotEnv :=
  { loadConf := fun _ => Except.ok confObjW
    read_csv := fun _ => Except.ok dfObjW
    log10 := fun _ => 0 }

/-- A plotting world in which every YAML load fails. -/
def plotEnvYamlFailW : PlotEnv :=
  { loadConf := fun _ => Except.error "missing"
    read_csv := fun _ => Except.ok dfObjW
    log10 := fun _ => 0 }

/-- Concrete grating parameters: explicitly supplied one-period lists. -/
def paramsW1 : Params :=
  { widths := Option.some [1], gaps := Option.some [2] }

/-- C5: for every key, value and ncores, `run` builds and executes exactly
one shell command, namely
`mpirun -np {ncores} python fiber.py --{key}={value}`: the list of commands
it passes to `subprocess.call` is exactly that singleton. -/
theorem claim_C5_run_command (key value : String) (ncores : ℕ) :
    subprocessCalls (run key value ncores)
      = ["mpirun -np " ++ toString ncores ++ " python fiber.py --"
          ++ key ++ "=" ++ value] := by
  rfl

/-- C9: `get_port_1D_eigenmode` modifies at most the `initialized` key of its
`sim_dict`: the resulting dict is exactly the input with `initialized` set to
`True` (hence every other key is unchanged, and a dict that was already
initialized is returned unchanged, since the update is then the identity);
initialization runs exactly when `initialized` was `False`; and afterwards
`initialized` is always `True`. -/
theorem claim_C9_initialized_frame {S Src M : Type} (d : SimDict S Src M) :
    (get_port_1D_eigenmode_dict d).1 = { d with initialized := true } ∧
    (get_port_1D_eigenmode_dict d).1.initialized = true ∧
    (get_port_1D_eigenmode_dict d).2 = !d.initialized ∧
    (get_port_1D_eigenmode_dict { d with initialized := true }).1
      = { d with initialized := true } := by
  obtain ⟨sim, cs, fr, fc, wm, wpd, fm, fad, srcs, fmp, ini, st⟩ := d
  cases ini <;> simp [get_port_1D_eigenmode_dict]

/-- C10: when `fiber_port_x_size` is `None` or `0.0` the port size is
`Vector3(3.5 * fiber_core_diameter, 0, 0)` (a supplied `0.0` silently falls
back to the default); any nonzero float is kept as the bare scalar itself;
and the fiber monitor port of lines 381-383 uses exactly this size. -/
theorem claim_C10_fiber_port_size (env : MathEnv) (p : Params) (d x : ℚ)
    (hx : x ≠ 0) :
    fiber_port_size Option.none d = SizeVal.vec3 (3.5 * d) 0 0 ∧
    fiber_port_size (Option.some 0) d = SizeVal.vec3 (3.5 * d) 0 0 ∧
    fiber_port_size (Option.some x) d = SizeVal.scalar x ∧
    (fiber_monitor_port env p).size
      = fiber_port_size p.fiber_port_x_size p.fiber_core_diameter := by
  exact ⟨rfl, by simp [fiber_port_size], by simp [fiber_port_size, hx], rfl⟩

/-- Witness for C10 at `x = 2`, `fiber_core_diameter = 1`. -/
theorem claim_C10_witness :
    (2 : ℚ) ≠ 0 ∧ fiber_port_size (Option.some 2) 1 = SizeVal.scalar 2 :=
  ⟨by norm_num,
   (claim_C10_fiber_port_size idMathEnv {} 1 2 (by norm_num)).2.2.1⟩

/-- C4: the cell extents are the closed-form sums of the stack parameters:
`sz` is `2*pml + substrate + bottom_clad + core + top_clad + air_gap +
fiber` thicknesses, and `sxy` is `3.5*fiber_core_diameter + 2*pml +
2*|fiber_port_y * tan(radians(fiber_angle_deg))|` with `fiber_port_y` the
first binding of lines 170-176; the returned dict's `cell_size` is
`(sxy, sz)`. -/
theorem claim_C4_cell_dimensions (env : MathEnv) (p : Params) :
    sz p = 2 * p.pml_thickness + p.substrate_thickness
        + p.bottom_clad_thickness + p.core_thickness + p.top_clad_thickness
        + p.air_gap_thickness + p.fiber_thickness ∧
    sxy env p = 3.5 * p.fiber_core_diameter + 2 * p.pml_thickness
        + 2 * |fiber_port_y_initial p * env.tan (env.radians p.fiber_angle_deg)| ∧
    fiber_port_y_initial p = -sz p / 2 + p.core_thickness
        + p.top_clad_thickness + p.air_gap_thickness
        + p.fiber_port_y_offset_from_air ∧
    (get_simulation_fiber env p () () () ()).cell_size = (sxy env p, sz p) := by
  exact ⟨by unfold sz; ring, rfl, rfl, rfl⟩

/-- C3 counterexample: the claim says a supplied non-`None` widths list is
used unchanged, but a supplied empty list is falsy for Python `or`, so the
code replaces it by the default `n_periods * [period * fill_factor]` — here
thirty copies of `0.66 * 0.5` instead of the supplied `[]`. -/
theorem claim_C3_counterexample :
    widths_used { widths := Option.some [] }
      = List.replicate 30 ((0.66 : ℚ) * 0.5) ∧
    widths_used { widths := Option.some [] } ≠ [] := by
  refine ⟨rfl, ?_⟩
  intro h
  have h2 : List.replicate 30 ((0.66 : ℚ) * 0.5) = ([] : Floats) := h
  have hlen := congrArg List.length h2
  simp at hlen

/-- C3 (amended): with `widths`/`gaps` equal to `None` the used and recorded
lists are `n_periods` copies of `period * fill_factor` resp.
`period * (1 - fill_factor)`; a supplied non-`None`, NON-EMPTY list is used
unchanged (a supplied empty list falls back to the default, like `None`);
and the used lists are the ones recorded in the returned settings dict. -/
theorem claim_C3_default_widths_gaps (env : MathEnv) (p : Params)
    (w g : Floats) (hw : w ≠ []) (hg : g ≠ []) :
    widths_used { p with widths := Option.none }
      = List.replicate p.n_periods (p.period * p.fill_factor) ∧
    gaps_used { p with gaps := Option.none }
      = List.replicate p.n_periods (p.period * (1 - p.fill_factor)) ∧
    widths_used { p with widths := Option.some w } = w ∧
    gaps_used { p with gaps := Option.some g } = g ∧
    (settings_of p).widths = widths_used p ∧
    (settings_of p).gaps = gaps_used p ∧
    (get_simulation_fiber env p () () () ()).settings = settings_of p := by
  refine ⟨rfl, rfl, ?_, ?_, rfl, rfl, rfl⟩
  · simp [widths_used, pyOrFloats, hw]
  · simp [gaps_used, pyOrFloats, hg]

/-- Witness for C3 with supplied one-element lists. -/
theorem claim_C3_witness :
    ([(1 : ℚ)] ≠ ([] : Floats)) ∧ ([(2 : ℚ)] ≠ ([] : Floats)) ∧
    widths_used { ({} : Params) with widths := Option.some [(1 : ℚ)] } = [1] ∧
    gaps_used { ({} : Params) with gaps := Option.some [(2 : ℚ)] } = [2] := by
  refine ⟨by simp, by simp, ?_, ?_⟩
  · exact (claim_C3_default_widths_gaps idMathEnv {} [1] [2]
      (by simp) (by simp)).2.2.1
  · exact (claim_C3_default_widths_gaps idMathEnv {} [1] [2]
      (by simp) (by simp)).2.2.2.1

/-- The etch loop appends one block per `(width, gap)` pair. -/
theorem etch_blocks_length (p : Params) (pairs : List (ℚ × ℚ)) :
    ∀ x, (etch_blocks p x pairs).length = pairs.length := by
  induction pairs with
  | nil => intro x; rfl
  | cons hd tl ih =>
      intro x
      obtain ⟨w, g⟩ := hd
      simp [etch_blocks, ih]

/-- Every block of the etch loop is made of the top cladding material. -/
theorem etch_blocks_map_material (p : Params) (pairs : List (ℚ × ℚ)) :
    ∀ x, (etch_blocks p x pairs).map Block.material
      = List.replicate pairs.length (Material.medium p.ncladtop) := by
  induction pairs with
  | nil => intro x; rfl
  | cons hd tl ih =>
      intro x
      obtain ⟨w, g⟩ := hd
      simp [etch_blocks, ih, List.replicate]

/-- C2: the geometry is assembled by a straight-line sequence with a single
loop: it is the fixed-order concatenation fiber cladding, fiber core, air
gap, top cladding, bottom cladding, waveguide core, one etch block per
`(width, gap)` pair of `zip(widths, gaps)`, substrate; it therefore has
exactly `7 + min |widths| |gaps|` blocks, and its material sequence is the
corresponding fixed list. -/
theorem claim_C2_geometry_order (env : MathEnv) (p : Params) :
    geometry env p
      = [fiber_clad_block env p, fiber_core_block env p, air_gap_block p,
         top_clad_block p, bottom_clad_block p, waveguide_block p]
        ++ etch_blocks p (grating_start p)
            (List.zip (widths_used p) (gaps_used p))
        ++ [substrate_block p] ∧
    (geometry env p).length
      = 7 + min (widths_used p).length (gaps_used p).length ∧
    (geometry env p).map Block.material
      = [Material.medium p.fiber_nclad,
         Material.medium
           (fiber_ncore env p.fiber_numerical_aperture p.fiber_nclad),
         Material.air, Material.medium p.ncladtop,
         Material.medium p.ncladbottom, Material.medium p.ncore]
        ++ List.replicate (min (widths_used p).length (gaps_used p).length)
            (Material.medium p.ncladtop)
        ++ [Material.medium p.nsubstrate] := by
  refine ⟨rfl, ?_, ?_⟩
  · simp [geometry, etch_blocks_length, List.length_zip]
    omega
  · simp [geometry, etch_blocks_map_material, List.length_zip,
      fiber_clad_block, fiber_core_block, air_gap_block, top_clad_block,
      bottom_clad_block, waveguide_block, substrate_block]

/-- Indexing the etch loop: starting the loop at running coordinate `x`, the
`k`-th produced block sits at `x` plus the sum of the first `k` widths and
gaps, offset by half its own gap, at height `etch_y`, with size
`(gap_k, etch_depth)`. -/
theorem etch_blocks_getElem (p : Params) :
    ∀ (k : ℕ) (ws gs : List ℚ) (x : ℚ), ∀ h1 : k < ws.length,
      ∀ h2 : k < gs.length,
      (etch_blocks p x (List.zip ws gs))[k]?
        = Option.some
            { material := Material.medium p.ncladtop
              center := (x + ((ws.take k).sum + (gs.take k).sum) + gs[k] / 2,
                etch_y p)
              size := (MeepLen.fin gs[k], MeepLen.fin p.etch_depth) } := by
  intro k
  induction k with
  | zero =>
      intro ws gs x _ h2
      match ws, gs with
      | w :: ws', g :: gs' =>
        simp [List.zip_cons_cons, etch_blocks]
  | succ k ih =>
      intro ws gs x h1 h2
      match ws, gs with
      | w :: ws', g :: gs' =>
        have h1' : k < ws'.length := by simpa using h1
        have h2' : k < gs'.length := by simpa using h2
        have step := ih ws' gs' (x + w + g) h1' h2'
        rw [List.zip_cons_cons]
        show ({ material := Material.medium p.ncladtop
                center := (x + g / 2, etch_y p)
                size := (MeepLen.fin g, MeepLen.fin p.etch_depth) } ::
              etch_blocks p (x + w + g) (List.zip ws' gs'))[k + 1]? = _
        rw [List.getElem?_cons_succ, step]
        simp only [Option.some.injEq, Block.mk.injEq, Prod.mk.injEq,
          List.take_succ_cons, List.sum_cons, List.getElem_cons_succ,
          and_true, true_and]
        ring

/-- C1: the `k`-th grating-etch block appended to the geometry (0-indexed
over `zip(widths, gaps)`) has center x `-fiber_xposition + Σ_{j<k}
(widths_j + gaps_j) + gaps_k / 2`, center y `-sz/2 + pml + substrate +
bottom_clad + core - etch_depth/2`, and size `(gaps_k, etch_depth)`.  Etch
blocks occupy positions 6, ..., 6 + min |widths| |gaps| - 1 of the geometry
list. -/
theorem claim_C1_etch_block_offsets (env : MathEnv) (p : Params) (k : ℕ)
    (h1 : k < (widths_used p).length) (h2 : k < (gaps_used p).length) :
    (geometry env p)[6 + k]?
      = Option.some
          { material := Material.medium p.ncladtop
            center := (-p.fiber_xposition
                + (((widths_used p).take k).sum + ((gaps_used p).take k).sum)
                + (gaps_used p)[k] / 2,
              -sz p / 2 + p.pml_thickness + p.substrate_thickness
                + p.bottom_clad_thickness + p.core_thickness
                - p.etch_depth / 2)
            size := (MeepLen.fin ((gaps_used p)[k]),
              MeepLen.fin p.etch_depth) } := by
  have hk : k < (List.zip (widths_used p) (gaps_used p)).length := by
    rw [List.length_zip]
    exact lt_min h1 h2
  have hk2 : k < (etch_blocks p (grating_start p)
      (List.zip (widths_used p) (gaps_used p))).length := by
    rw [etch_blocks_length]
    exact hk
  have hchain :
      (geometry env p)[6 + k]?
        = (etch_blocks p (grating_start p)
            (List.zip (widths_used p) (gaps_used p)))[k]? := by
    show ([fiber_clad_block env p, fiber_core_block env p, air_gap_block p,
        top_clad_block p, bottom_clad_block p, waveguide_block p]
      ++ (etch_blocks p (grating_start p)
            (List.zip (widths_used p) (gaps_used p))
          ++ [substrate_block p]))[6 + k]? = _
    rw [List.getElem?_append_right (by simp)]
    have h6 : 6 + k - ([fiber_clad_block env p, fiber_core_block env p,
        air_gap_block p, top_clad_block p, bottom_clad_block p,
        waveguide_block p]).length = k := by
      simp
    rw [h6, List.getElem?_append_left hk2]
  rw [hchain, etch_blocks_getElem p k _ _ _ h1 h2]
  simp only [Option.some.injEq, Block.mk.injEq, Prod.mk.injEq, and_true,
    true_and, grating_start, etch_y]
  ring

/-- Witness for C1 at `k = 0` with supplied lists `widths = [1]`,
`gaps = [2]`. -/
theorem claim_C1_witness :
    0 < (widths_used paramsW1).length ∧ 0 < (gaps_used paramsW1).length ∧
    (geometry idMathEnv paramsW1)[6 + 0]?
      = Option.some
          { material := Material.medium paramsW1.ncladtop
            center := (-paramsW1.fiber_xposition
                + (((widths_used paramsW1).take 0).sum
                  + ((gaps_used paramsW1).take 0).sum)
                + (gaps_used paramsW1).get ⟨0, by decide⟩ / 2,
              -sz paramsW1 / 2 + paramsW1.pml_thickness
                + paramsW1.substrate_thickness
                + paramsW1.bottom_clad_thickness
                + paramsW1.core_thickness - paramsW1.etch_depth / 2)
            size := (MeepLen.fin ((gaps_used paramsW1).get ⟨0, by decide⟩),
              MeepLen.fin paramsW1.etch_depth) } :=
  ⟨by decide, by decide,
   claim_C1_etch_block_offsets idMathEnv paramsW1 0 (by decide) (by decide)⟩

/-- `max` succeeds exactly on nonempty sequences. -/
theorem pymax_ok (l : List ℚ) (h : l ≠ []) : pymax l = Except.ok (pymax1 l) := by
  cases l with
  | nil => exact absurd rfl h
  | cons x xs => rfl

/-- The only error `max` can raise is the empty-sequence `ValueError`. -/
theorem pymax_error (l : List ℚ) (e : PlotError)
    (h : pymax l = Except.error e) : e = PlotError.emptySequence := by
  cases l with
  | nil => cases h; rfl
  | cons x xs => cases h

/-- Unfolding the plotting loop when every file pair on the list loads and
every csv column is nonempty: the trace lists, per csv file and in order,
the YAML load of the companion `.yml` path followed by the csv read, and
the accumulated outputs are the extracted `fiber_xposition` scalars and the
maxima of `10 * log10(s21m)`. -/
theorem plot_pairs_loop_ok (env : PlotEnv)
    (confOf : PathName → OmegaConfFile) (dfOf : PathName → DataFrame) :
    ∀ (files : List PathName) (acc1 acc2 : List ℚ) (tr : List PlotIOEvent),
    (∀ q ∈ files, env.loadConf (q.with_suffix ".yml") = Except.ok (confOf q)) →
    (∀ q ∈ files, env.read_csv q = Except.ok (dfOf q)) →
    (∀ q ∈ files, (dfOf q).s21m ≠ []) →
    plot_pairs_loop env files acc1 acc2 tr
      = (tr ++ files.flatMap (fun q =>
            [PlotIOEvent.yamlLoad (q.with_suffix ".yml"),
             PlotIOEvent.csvRead q]),
         Except.ok
          (acc1 ++ files.map (fun q => (confOf q).settings.fiber_xposition),
           acc2 ++ files.map (fun q =>
             pymax1 ((dfOf q).s21m.map (fun v => 10 * env.log10 v))))) := by
  intro files
  induction files with
  | nil =>
      intro acc1 acc2 tr _ _ _
      simp [plot_pairs_loop]
  | cons q rest ih =>
      intro acc1 acc2 tr hL hR hN
      have hq := hL q (List.mem_cons_self q rest)
      have hrq := hR q (List.mem_cons_self q rest)
      have hnq := hN q (List.mem_cons_self q rest)
      have hmapne : (dfOf q).s21m.map (fun v => 10 * env.log10 v) ≠ [] := by
        intro hmap
        exact hnq (List.map_eq_nil_iff.mp hmap)
      have hrec := ih (acc1 ++ [(confOf q).settings.fiber_xposition])
        (acc2 ++ [pymax1 ((dfOf q).s21m.map (fun v => 10 * env.log10 v))])
        (tr ++ [PlotIOEvent.yamlLoad (q.with_suffix ".yml"),
                PlotIOEvent.csvRead q])
        (fun r hr => hL r (List.mem_cons_of_mem q hr))
        (fun r hr => hR r (List.mem_cons_of_mem q hr))
        (fun r hr => hN r (List.mem_cons_of_mem q hr))
      simp only [plot_pairs_loop, hq, hrq, pymax_ok _ hmapne, hrec]
      simp [List.flatMap_cons]

/-- If every file before `p` loads fine but the YAML companion of `p` fails
to load, the loop stops with exactly that uncaught read error. -/
theorem plot_pairs_loop_yaml_fail (env : PlotEnv)
    (confOf : PathName → OmegaConfFile) (dfOf : PathName → DataFrame)
    (p : PathName) (post : List PathName) (msg : String)
    (hfail : env.loadConf (p.with_suffix ".yml") = Except.error msg) :
    ∀ (pre : List PathName) (acc1 acc2 : List ℚ) (tr : List PlotIOEvent),
    (∀ q ∈ pre, env.loadConf (q.with_suffix ".yml") = Except.ok (confOf q)) →
    (∀ q ∈ pre, env.read_csv q = Except.ok (dfOf q)) →
    (∀ q ∈ pre, (dfOf q).s21m ≠ []) →
    (plot_pairs_loop env (pre ++ p :: post) acc1 acc2 tr).2
      = Except.error (PlotError.yamlReadError (p.with_suffix ".yml") msg) := by
  intro pre
  induction pre with
  | nil =>
      intro acc1 acc2 tr _ _ _
      simp [plot_pairs_loop, hfail]
  | cons q rest ih =>
      intro acc1 acc2 tr hL hR hN
      have hq := hL q (List.mem_cons_self q rest)
      have hrq := hR q (List.mem_cons_self q rest)
      have hnq := hN q (List.mem_cons_self q rest)
      have hmapne : (dfOf q).s21m.map (fun v => 10 * env.log10 v) ≠ [] := by
        intro hmap
        exact hnq (List.map_eq_nil_iff.mp hmap)
      have hrec := ih (acc1 ++ [(confOf q).settings.fiber_xposition])
        (acc2 ++ [pymax1 ((dfOf q).s21m.map (fun v => 10 * env.log10 v))])
        (tr ++ [PlotIOEvent.yamlLoad (q.with_suffix ".yml"),
                PlotIOEvent.csvRead q])
        (fun r hr => hL r (List.mem_cons_of_mem q hr))
        (fun r hr => hR r (List.mem_cons_of_mem q hr))
        (fun r hr => hN r (List.mem_cons_of_mem q hr))
      simp only [List.cons_append, plot_pairs_loop, hq, hrq,
        pymax_ok _ hmapne]
      exact hrec

/-- Same as `plot_pairs_loop_yaml_fail` for a failing csv read. -/
theorem plot_pairs_loop_csv_fail (env : PlotEnv)
    (confOf : PathName → OmegaConfFile) (dfOf : PathName → DataFrame)
    (p : PathName) (post : List PathName) (conf : OmegaConfFile)
    (msg : String)
    (hok : env.loadConf (p.with_suffix ".yml") = Except.ok conf)
    (hfail : env.read_csv p = Except.error msg) :
    ∀ (pre : List PathName) (acc1 acc2 : List ℚ) (tr : List PlotIOEvent),
    (∀ q ∈ pre, env.loadConf (q.with_suffix ".yml") = Except.ok (confOf q)) →
    (∀ q ∈ pre, env.read_csv q = Except.ok (dfOf q)) →
    (∀ q ∈ pre, (dfOf q).s21m ≠ []) →
    (plot_pairs_loop env (pre ++ p :: post) acc1 acc2 tr).2
      = Except.error (PlotError.csvReadError p msg) := by
  intro pre
  induction pre with
  | nil =>
      intro acc1 acc2 tr _ _ _
      simp [plot_pairs_loop, hok, hfail]
  | cons q rest ih =>
      intro acc1 acc2 tr hL hR hN
      have hq := hL q (List.mem_cons_self q rest)
      have hrq := hR q (List.mem_cons_self q rest)
      have hnq := hN q (List.mem_cons_self q rest)
      have hmapne : (dfOf q).s21m.map (fun v => 10 * env.log10 v) ≠ [] := by
        intro hmap
        exact hnq (List.map_eq_nil_iff.mp hmap)
      have hrec := ih (acc1 ++ [(confOf q).settings.fiber_xposition])
        (acc2 ++ [pymax1 ((dfOf q).s21m.map (fun v => 10 * env.log10 v))])
        (tr ++ [PlotIOEvent.yamlLoad (q.with_suffix ".yml"),
                PlotIOEvent.csvRead q])
        (fun r hr => hL r (List.mem_cons_of_mem q hr))
        (fun r hr => hR r (List.mem_cons_of_mem q hr))
        (fun r hr => hN r (List.mem_cons_of_mem q hr))
      simp only [List.cons_append, plot_pairs_loop, hq, hrq,
        pymax_ok _ hmapne]
      exact hrec

/-- When every YAML load and every csv read on the list succeeds, the only
error the loop can produce is the `max()` empty-sequence `ValueError` — the
pairing logic itself raises nothing. -/
theorem plot_pairs_loop_no_read_error (env : PlotEnv) :
    ∀ (files : List PathName) (acc1 acc2 : List ℚ) (tr : List PlotIOEvent)
      (err : PlotError),
    (∀ q ∈ files, ∃ c, env.loadConf (q.with_suffix ".yml") = Except.ok c) →
    (∀ q ∈ files, ∃ df, env.read_csv q = Except.ok df) →
    (plot_pairs_loop env files acc1 acc2 tr).2 = Except.error err →
    err = PlotError.emptySequence := by
  intro files
  induction files with
  | nil =>
      intro acc1 acc2 tr err _ _ h
      simp [plot_pairs_loop] at h
  | cons q rest ih =>
      intro acc1 acc2 tr err hL hR h
      obtain ⟨c, hc⟩ := hL q (List.mem_cons_self q rest)
      obtain ⟨df, hdf⟩ := hR q (List.mem_cons_self q rest)
      rw [show plot_pairs_loop env (q :: rest) acc1 acc2 tr
          = (match env.loadConf (q.with_suffix ".yml") with
             | Except.error msg =>
                 (tr ++ [PlotIOEvent.yamlLoad (q.with_suffix ".yml")],
                  Except.error
                    (PlotError.yamlReadError (q.with_suffix ".yml") msg))
             | Except.ok conf =>
                 match env.read_csv q with
                 | Except.error msg =>
                     (tr ++ [PlotIOEvent.yamlLoad (q.with_suffix ".yml"),
                             PlotIOEvent.csvRead q],
                      Except.error (PlotError.csvReadError q msg))
                 | Except.ok df =>
                     match pymax (df.s21m.map (fun v => 10 * env.log10 v)) with
                     | Except.error e =>
                         (tr ++ [PlotIOEvent.yamlLoad (q.with_suffix ".yml"),
                                 PlotIOEvent.csvRead q],
                          Except.error e)
                     | Except.ok m =>
                         plot_pairs_loop env rest
                           (acc1 ++ [conf.settings.fiber_xposition])
                           (acc2 ++ [m])
                           (tr ++ [PlotIOEvent.yamlLoad (q.with_suffix ".yml"),
                                   PlotIOEvent.csvRead q])) from rfl] at h
      rw [hc, hdf] at h
      rcases hp : pymax (df.s21m.map (fun v => 10 * env.log10 v)) with e | m
      · simp only [hp] at h
        simp at h
        rw [h] at hp
        exact pymax_error _ _ hp
      · simp only [hp] at h
        exact ih _ _ _ err
          (fun r hr => hL r (List.mem_cons_of_mem q hr))
          (fun r hr => hR r (List.mem_cons_of_mem q hr)) h

/-- C6: for every csv file the plotting loops iterate over, the companion
settings file loaded is exactly the same path with its suffix replaced by
`.yml` (same stem), and from the pair exactly the scalar
`settings.settings.fiber_xposition` and the `s21m` column are extracted;
`plot_fiber_xposition_spectrum` performs the identical pairing loop. -/
theorem claim_C6_file_pairing (env : PlotEnv)
    (wavelength_min wavelength_max : ℚ) (wavelength_points : ℕ)
    (files : List PathName)
    (confOf : PathName → OmegaConfFile) (dfOf : PathName → DataFrame)
    (hL : ∀ q ∈ files, env.loadConf (q.with_suffix ".yml")
      = Except.ok (confOf q))
    (hR : ∀ q ∈ files, env.read_csv q = Except.ok (dfOf q))
    (hN : ∀ q ∈ files, (dfOf q).s21m ≠ []) :
    plot_fiber_xposition_max_power env files
      = (files.flatMap (fun q =>
            [PlotIOEvent.yamlLoad (q.with_suffix ".yml"),
             PlotIOEvent.csvRead q]),
         Except.ok
           (files.map (fun q => (confOf q).settings.fiber_xposition),
            files.map (fun q =>
              pymax1 ((dfOf q).s21m.map (fun v => 10 * env.log10 v))))) ∧
    (plot_fiber_xposition_spectrum env wavelength_min wavelength_max
        wavelength_points files).2
      = plot_fiber_xposition_max_power env files ∧
    (∀ q : PathName, (q.with_suffix ".yml").stem = q.stem
      ∧ (q.with_suffix ".yml").ext = ".yml") := by
  refine ⟨?_, rfl, fun q => ⟨rfl, rfl⟩⟩
  have h := plot_pairs_loop_ok env confOf dfOf files [] [] [] hL hR hN
  simpa [plot_fiber_xposition_max_power] using h

/-- Witness for C6: one file, a world in which every read succeeds. -/
theorem claim_C6_witness :
    (∀ q ∈ [pathA], plotEnvOkW.loadConf (q.with_suffix ".yml")
      = Except.ok confObjW) ∧
    (∀ q ∈ [pathA], plotEnvOkW.read_csv q = Except.ok dfObjW) ∧
    (∀ q ∈ [pathA], dfObjW.s21m ≠ []) ∧
    plot_fiber_xposition_max_power plotEnvOkW [pathA]
      = ([PlotIOEvent.yamlLoad (pathA.with_suffix ".yml"),
          PlotIOEvent.csvRead pathA],
         Except.ok ([confObjW.settings.fiber_xposition],
           [pymax1 (dfObjW.s21m.map (fun v => 10 * plotEnvOkW.log10 v))])) := by
  refine ⟨fun q _ => rfl, fun q _ => rfl,
    fun q _ => (by decide : dfObjW.s21m ≠ []), ?_⟩
  have h := (claim_C6_file_pairing plotEnvOkW 0 0 0 [pathA]
    (fun _ => confObjW) (fun _ => dfObjW)
    (fun q _ => rfl) (fun q _ => rfl)
    (fun q _ => (by decide : dfObjW.s21m ≠ []))).1
  simpa using h

/-- C7: the plotting functions contain no error handling: with every file
pair before `p` loading fine, a failing YAML load (resp. csv read) at `p`
makes the function propagate exactly that uncaught read error — nothing is
caught, skipped or retried; conversely, when every pair on the list loads
successfully the pairing logic raises nothing (the only possible error left
is the `max()` `ValueError` on an empty spectrum column).  The spectrum
function runs the identical loop, so the same statements transfer to it. -/
theorem claim_C7_error_propagation (env : PlotEnv)
    (confOf : PathName → OmegaConfFile) (dfOf : PathName → DataFrame)
    (pre : List PathName) (p : PathName) (post : List PathName)
    (hL : ∀ q ∈ pre, env.loadConf (q.with_suffix ".yml")
      = Except.ok (confOf q))
    (hR : ∀ q ∈ pre, env.read_csv q = Except.ok (dfOf q))
    (hN : ∀ q ∈ pre, (dfOf q).s21m ≠ []) :
    (∀ msg, env.loadConf (p.with_suffix ".yml") = Except.error msg →
      (plot_fiber_xposition_max_power env (pre ++ p :: post)).2
        = Except.error (PlotError.yamlReadError (p.with_suffix ".yml") msg)) ∧
    (∀ conf msg, env.loadConf (p.with_suffix ".yml") = Except.ok conf →
      env.read_csv p = Except.error msg →
      (plot_fiber_xposition_max_power env (pre ++ p :: post)).2
        = Except.error (PlotError.csvReadError p msg)) ∧
    (∀ files : List PathName,
      (∀ q ∈ files, ∃ c, env.loadConf (q.with_suffix ".yml") = Except.ok c) →
      (∀ q ∈ files, ∃ df, env.read_csv q = Except.ok df) →
      ∀ err, (plot_fiber_xposition_max_power env files).2 = Except.error err →
        err = PlotError.emptySequence) ∧
    (∀ wl_min wl_max : ℚ, ∀ wl_points : ℕ, ∀ files : List PathName,
      (plot_fiber_xposition_spectrum env wl_min wl_max wl_points files).2
        = plot_fiber_xposition_max_power env files) := by
  refine ⟨?_, ?_, ?_, fun _ _ _ _ => rfl⟩
  · intro msg hfail
    exact plot_pairs_loop_yaml_fail env confOf dfOf p post msg hfail
      pre [] [] [] hL hR hN
  · intro conf msg hok hfail
    exact plot_pairs_loop_csv_fail env confOf dfOf p post conf msg hok hfail
      pre [] [] [] hL hR hN
  · intro files hLf hRf err herr
    exact plot_pairs_loop_no_read_error env files [] [] [] err hLf hRf herr

/-- Witness for C7: one file whose YAML companion is missing; the error
propagates uncaught. -/
theorem claim_C7_witness :
    plotEnvYamlFailW.loadConf (pathA.with_suffix ".yml")
      = Except.error "missing" ∧
    (plot_fiber_xposition_max_power plotEnvYamlFailW [pathA]).2
      = Except.error
          (PlotError.yamlReadError (pathA.with_suffix ".yml") "missing") := by
  refine ⟨rfl, ?_⟩
  exact (claim_C7_error_propagation plotEnvYamlFailW (fun _ => confObjW)
    (fun _ => dfObjW) [] pathA []
    (fun q hq => absurd hq (List.not_mem_nil q))
    (fun q hq => absurd hq (List.not_mem_nil q))
    (fun q hq => absurd hq (List.not_mem_nil q))).1 "missing" rfl

/-- Rendering dict entries is an entrywise map. -/
theorem render_entries_eq_map (d : List (String × PyVal)) :
    render_entries d = d.map render_entry := by
  induction d with
  | nil => rfl
  | cons kv rest ih =>
      obtain ⟨k, v⟩ := kv
      cases v <;> simp [render_entries, render_entry, PyVal.isNone, ih]

/-- Rendering keeps the key list. -/
theorem render_entries_keys (d : List (String × PyVal)) :
    (render_entries d).map Prod.fst = d.map Prod.fst := by
  rw [render_entries_eq_map, List.map_map]
  rfl

/-- Rendering transports permutations. -/
theorem render_entries_perm {d d' : List (String × PyVal)} (h : d.Perm d') :
    (render_entries d).Perm (render_entries d') := by
  rw [render_entries_eq_map, render_entries_eq_map]
  exact h.map render_entry

/-- A key that does not occur looks up to nothing. -/
theorem dict_getitem_not_mem {β : Type} :
    ∀ (E : List (String × β)) (k : String), k ∉ E.map Prod.fst →
      dict_getitem E k = Option.none := by
  intro E
  induction E with
  | nil => intro k _; rfl
  | cons e rest ih =>
      obtain ⟨k0, v0⟩ := e
      intro k hk
      simp only [List.map_cons, List.mem_cons, not_or] at hk
      have hne : k0 ≠ k := fun h => hk.1 h.symm
      simp [dict_getitem, hne, ih k hk.2]

/-- With duplicate-free keys, lookup only depends on the entry multiset. -/
theorem dict_getitem_perm {β : Type} {l l' : List (String × β)}
    (h : l.Perm l') :
    (l.map Prod.fst).Nodup → ∀ k, dict_getitem l k = dict_getitem l' k := by
  induction h with
  | nil => intro _ k; rfl
  | cons x h ih =>
      obtain ⟨kx, vx⟩ := x
      intro hnd k
      simp only [List.map_cons, List.nodup_cons] at hnd
      by_cases hk : kx = k
      · simp [dict_getitem, hk]
      · simp [dict_getitem, hk, ih hnd.2 k]
  | swap x y l =>
      obtain ⟨kx, vx⟩ := x
      obtain ⟨ky, vy⟩ := y
      intro hnd k
      simp only [List.map_cons, List.nodup_cons, List.mem_cons, not_or] at hnd
      by_cases h1 : ky = k <;> by_cases h2 : kx = k
      · exact absurd (h1.trans h2.symm) hnd.1.1
      · simp [dict_getitem, h1, h2]
      · simp [dict_getitem, h1, h2]
      · simp [dict_getitem, h1, h2]
  | trans h1 h2 ih1 ih2 =>
      intro hnd k
      rw [ih1 hnd k, ih2 ((h1.map Prod.fst).nodup hnd) k]

/-- Sorting strings only depends on the multiset. -/
theorem sortKeys_perm_eq {l l' : List String} (h : l.Perm l') :
    List.insertionSort (fun a b => a ≤ b) l
      = List.insertionSort (fun a b => a ≤ b) l' :=
  List.eq_of_perm_of_sorted
    ((List.perm_insertionSort _ l).trans
      (h.trans (List.perm_insertionSort _ l').symm))
    (List.sorted_insertionSort _ l) (List.sorted_insertionSort _ l')

/-- `filterMap` only uses the function on list members. -/
theorem filterMap_ext_mem {α β : Type} :
    ∀ (l : List α) (f g : α → Option β), (∀ a ∈ l, f a = g a) →
      l.filterMap f = l.filterMap g := by
  intro l
  induction l with
  | nil => intro f g _; rfl
  | cons a rest ih =>
      intro f g h
      rw [List.filterMap_cons, List.filterMap_cons,
        h a (List.mem_cons_self a rest),
        ih f g (fun b hb => h b (List.mem_cons_of_mem a hb))]

/-- Dropping only elements mapped to `none` does not change a `filterMap`. -/
theorem filterMap_filter_of_none {α β : Type} (Q : α → Bool)
    (f : α → Option β) :
    ∀ l : List α, (∀ a ∈ l, Q a = false → f a = Option.none) →
      (l.filter Q).filterMap f = l.filterMap f := by
  intro l
  induction l with
  | nil => intro _; rfl
  | cons a rest ih =>
      intro h
      have hrest := ih (fun b hb => h b (List.mem_cons_of_mem a hb))
      cases hq : Q a with
      | false =>
          have hfa := h a (List.mem_cons_self a rest) hq
          simp [List.filter_cons, hq, List.filterMap_cons, hfa, hrest]
      | true =>
          simp [List.filter_cons, hq, List.filterMap_cons, hrest]

/-- Lookup in the sub-dict of rendered (non-`None`) entries. -/
theorem dict_getitem_filter_isSome :
    ∀ (E : List (String × Option String)), (E.map Prod.fst).Nodup →
      ∀ k, dict_getitem (E.filter (fun e => e.2.isSome)) k
        = if ((dict_getitem E k).getD Option.none).isSome
          then dict_getitem E k else Option.none := by
  intro E
  induction E with
  | nil => intro _ k; rfl
  | cons e rest ih =>
      obtain ⟨k0, v0⟩ := e
      intro hnd k
      simp only [List.map_cons, List.nodup_cons] at hnd
      by_cases hk : k0 = k
      · subst hk
        cases v0 with
        | none =>
            have hnone : dict_getitem rest k0 = Option.none :=
              dict_getitem_not_mem rest k0 hnd.1
            simp [List.filter_cons, dict_getitem, ih hnd.2 k0, hnone]
        | some s0 =>
            simp [List.filter_cons, dict_getitem]
      · cases v0 with
        | none => simp [List.filter_cons, dict_getitem, hk, ih hnd.2 k]
        | some s0 => simp [List.filter_cons, dict_getitem, hk, ih hnd.2 k]

/-- The keys surviving the non-`None` filter, as a filter on the key list. -/
theorem keys_filter_isSome :
    ∀ (E : List (String × Option String)), (E.map Prod.fst).Nodup →
      (E.filter (fun e => e.2.isSome)).map Prod.fst
        = (E.map Prod.fst).filter
            (fun k => ((dict_getitem E k).getD Option.none).isSome) := by
  intro E
  induction E with
  | nil => intro _; rfl
  | cons e rest ih =>
      obtain ⟨k0, v0⟩ := e
      intro hnd
      simp only [List.map_cons, List.nodup_cons] at hnd
      have hcongr : (rest.map Prod.fst).filter
            (fun k =>
              ((dict_getitem ((k0, v0) :: rest) k).getD Option.none).isSome)
          = (rest.map Prod.fst).filter
            (fun k => ((dict_getitem rest k).getD Option.none).isSome) := by
        apply List.filter_congr
        intro k hk
        have hne : k0 ≠ k := fun h => hnd.1 (h ▸ hk)
        simp [dict_getitem, hne]
      cases v0 with
      | none =>
          have hk0 : ((dict_getitem ((k0, Option.none) :: rest) k0).getD
              Option.none).isSome = false := by
            simp [dict_getitem]
          simp only [List.filter_cons, List.map_cons, hk0, hcongr,
            Option.isSome_none, Bool.false_eq_true, if_false, ih hnd.2]
      | some s0 =>
          have hk0 : ((dict_getitem ((k0, Option.some s0) :: rest) k0).getD
              Option.none).isSome = true := by
            simp [dict_getitem]
          simp only [List.filter_cons, List.map_cons, hk0, hcongr,
            Option.isSome_some, if_true, ih hnd.2]

/-- Sorting commutes with filtering. -/
theorem insertionSort_filter (Q : String → Bool) (l : List String) :
    List.insertionSort (fun a b => a ≤ b) (l.filter Q)
      = (List.insertionSort (fun a b => a ≤ b) l).filter Q :=
  List.eq_of_perm_of_sorted
    ((List.perm_insertionSort _ _).trans
      (((List.perm_insertionSort (fun a b => a ≤ b) l).filter Q).symm))
    (List.sorted_insertionSort _ _)
    (List.Pairwise.filter Q (List.sorted_insertionSort _ l))

/-- `name_from_rendered` ignores un-rendered (`None`) entries. -/
theorem name_from_rendered_filter (E : List (String × Option String))
    (hnd : (E.map Prod.fst).Nodup) :
    name_from_rendered (E.filter (fun e => e.2.isSome))
      = name_from_rendered E := by
  unfold name_from_rendered
  rw [keys_filter_isSome E hnd, insertionSort_filter]
  refine congrArg joinUnderscore ?_
  have hemit : ∀ k,
      (match dict_getitem (E.filter (fun e => e.2.isSome)) k with
       | Option.some (Option.some s) => Option.some (k ++ s)
       | _ => Option.none)
      = (match dict_getitem E k with
         | Option.some (Option.some s) => Option.some (k ++ s)
         | _ => Option.none) := by
    intro k
    rw [dict_getitem_filter_isSome E hnd k]
    cases hgi : dict_getitem E k with
    | none => rfl
    | some v =>
        cases v with
        | none => rfl
        | some s => rfl
  rw [filterMap_ext_mem _ _ _ (fun k _ => hemit k)]
  apply filterMap_filter_of_none
  intro k _ hq
  cases hgi : dict_getitem E k with
  | none => rfl
  | some v =>
      cases v with
      | none => rfl
      | some s =>
          rw [hgi] at hq
          simp at hq

/-- With duplicate-free keys, `dict_to_name` is insertion-order independent:
the sorted-key iteration gives equal names on permuted dicts. -/
theorem dict_to_name_perm {d d' : List (String × PyVal)}
    (hnd : (d.map Prod.fst).Nodup) (h : d.Perm d') :
    dict_to_name d' = dict_to_name d := by
  have hnd' : ((render_entries d').map Prod.fst).Nodup := by
    rw [render_entries_keys]
    exact (h.map Prod.fst).nodup hnd
  unfold dict_to_name name_from_rendered
  rw [render_entries_keys, render_entries_keys,
    sortKeys_perm_eq (h.map Prod.fst).symm]
  refine congrArg joinUnderscore ?_
  apply filterMap_ext_mem
  intro k _
  rw [dict_getitem_perm (render_entries_perm h).symm hnd' k]

/-- Dict entries whose value is `None` contribute nothing to the name. -/
theorem dict_to_name_filter_none (d : List (String × PyVal))
    (hnd : (d.map Prod.fst).Nodup) :
    dict_to_name (d.filter (fun kv => !kv.2.isNone)) = dict_to_name d := by
  have hkeys : ((render_entries d).map Prod.fst).Nodup := by
    rw [render_entries_keys]
    exact hnd
  have hrend : render_entries (d.filter (fun kv => !kv.2.isNone))
      = (render_entries d).filter (fun e => e.2.isSome) := by
    rw [render_entries_eq_map, render_entries_eq_map, List.filter_map]
    congr 1
    apply List.filter_congr
    intro kv _
    cases hv : kv.2 <;> simp [render_entry, PyVal.isNone, hv]
  unfold dict_to_name
  rw [hrend]
  exact name_from_rendered_filter (render_entries d) hkeys

/-- C8: `dict_to_name` sorts the keys and omits `None`-valued entries, so it
depends only on the key-to-value mapping and not on insertion order; hence
the settings string of line 151 and the derived settings hash of line 152
are invariant under permutation of the settings dict's entries. -/
theorem claim_C8_name_invariance (md5 : String → String)
    (d d' : List (String × PyVal))
    (hnd : (d.map Prod.fst).Nodup) (hperm : d.Perm d') :
    dict_to_name d' = dict_to_name d ∧
    dict_to_name (d.filter (fun kv => !kv.2.isNone)) = dict_to_name d ∧
    settings_string d' = settings_string d ∧
    settings_hash md5 (settings_string d')
      = settings_hash md5 (settings_string d) := by
  have h1 := dict_to_name_perm hnd hperm
  have h3 : settings_string d' = settings_string d := h1
  exact ⟨h1, dict_to_name_filter_none d hnd, h3, by rw [h3]⟩

/-- Witness for C8 on a three-entry dict with an adjacent transposition. -/
theorem claim_C8_witness :
    ((([("b", PyVal.atom "1"), ("a", PyVal.atom "2"), ("c", PyVal.pynone)] :
        List (String × PyVal)).map Prod.fst).Nodup) ∧
    (([("b", PyVal.atom "1"), ("a", PyVal.atom "2"), ("c", PyVal.pynone)] :
        List (String × PyVal)).Perm
      [("a", PyVal.atom "2"), ("b", PyVal.atom "1"), ("c", PyVal.pynone)]) ∧
    dict_to_name
        [("a", PyVal.atom "2"), ("b", PyVal.atom "1"), ("c", PyVal.pynone)]
      = dict_to_name
        [("b", PyVal.atom "1"), ("a", PyVal.atom "2"), ("c", PyVal.pynone)] := by
  refine ⟨by decide, List.Perm.swap _ _ _, ?_⟩
  exact (claim_C8_name_invariance id
    [("b", PyVal.atom "1"), ("a", PyVal.atom "2"), ("c", PyVal.pynone)]
    [("a", PyVal.atom "2"), ("b", PyVal.atom "1"), ("c", PyVal.pynone)]
    (by decide) (List.Perm.swap _ _ _)).1
